import Mathlib

/-!
Verification of the EKS cluster module (cloudify_aws/eks/resources/cluster.py):
the readiness-polling configuration, bearer-token derivation (URL-safe base64 of
a presigned URL with padding stripped), kubeconfig assembly, and the error
policies of describe, kubeconfig storage, deletion and post-activation
enrichment.
-/

namespace EKS

/-! ## Module constants (cluster.py lines 45-47) -/

/-- Embeds CLUSTER_NAME_HEADER = "x-k8s-aws-id". -/
def CLUSTER_NAME_HEADER : String := "x-k8s-aws-id"

/-- Embeds TOKEN_PREFIX = "k8s-aws-v1." as a character list. -/
def tokenPrefixChars : List Char := "k8s-aws-v1.".data

/-- Embeds TOKEN_EXPIRATION_MINS = 60. -/
def TOKEN_EXPIRATION_MINS : Nat := 60

/-- The value the code passes as the ExpiresIn argument (unit: seconds) of
generate_presigned_url in get_kubeconf (cluster.py line 163). -/
def generate_presigned_url_expires_in : Nat := TOKEN_EXPIRATION_MINS

/-! ## URL-safe base64 (Python base64.urlsafe_b64encode over bytes)

A byte is a Nat below 256; the encoder regroups bytes into 6-bit values
(sextets), maps them through the URL-safe alphabet and appends padding. -/

/-- The URL-safe base64 alphabet (RFC 4648 with a minus and an underscore). -/
def b64Alphabet : List Char :=
  ['A', 'B', 'C', 'D', 'E', 'F', 'G', 'H', 'I', 'J', 'K', 'L', 'M',
   'N', 'O', 'P', 'Q', 'R', 'S', 'T', 'U', 'V', 'W', 'X', 'Y', 'Z',
   'a', 'b', 'c', 'd', 'e', 'f', 'g', 'h', 'i', 'j', 'k', 'l', 'm',
   'n', 'o', 'p', 'q', 'r', 's', 't', 'u', 'v', 'w', 'x', 'y', 'z',
   '0', '1', '2', '3', '4', '5', '6', '7', '8', '9', '-', '_']

/-- Maps a sextet value to its alphabet character. -/
def sextetChar (n : Nat) : Char := b64Alphabet.getD n 'A'

/-- Inverse of sextetChar on values below 64. -/
def charSextet (c : Char) : Nat := b64Alphabet.indexOf c

/-- Regroups a byte list into sextets, exactly as base64 encoding does:
3 bytes become 4 sextets; a 1-byte tail becomes 2 sextets, a 2-byte tail 3. -/
def toSextets : List Nat → List Nat
  | [] => []
  | [a] => [a / 4, a % 4 * 16]
  | [a, b] => [a / 4, a % 4 * 16 + b / 16, b % 16 * 4]
  | a :: b :: c :: rest =>
      a / 4 :: (a % 4 * 16 + b / 16) :: (b % 16 * 4 + c / 64) :: c % 64 ::
        toSextets rest

/-- Regroups sextets back into bytes (base64 decoding after padding removal). -/
def fromSextets : List Nat → List Nat
  | [s1, s2] => [s1 * 4 + s2 / 16]
  | [s1, s2, s3] => [s1 * 4 + s2 / 16, s2 % 16 * 16 + s3 / 4]
  | s1 :: s2 :: s3 :: s4 :: rest =>
      (s1 * 4 + s2 / 16) :: (s2 % 16 * 16 + s3 / 4) :: (s3 % 4 * 64 + s4) ::
        fromSextets rest
  | _ => []

/-- Embeds base64.urlsafe_b64encode: alphabet characters then '=' padding to a
multiple of four characters. -/
def b64encode (bs : List Nat) : List Char :=
  (toSextets bs).map sextetChar ++ List.replicate ((3 - bs.length % 3) % 3) '='

/-- Embeds str.rstrip with the padding character: drops trailing '='. -/
def rstripEq (cs : List Char) : List Char :=
  (cs.reverse.dropWhile (fun c => c == '=')).reverse

/-- Re-pads a stripped base64 text to a multiple of four characters, the step a
consumer performs before base64-decoding the token suffix. -/
def repad (cs : List Char) : List Char :=
  cs ++ List.replicate ((4 - cs.length % 4) % 4) '='

/-- Embeds base64.urlsafe_b64decode: drops padding, maps characters back to
sextets and regroups them into bytes. -/
def b64decode (cs : List Char) : List Nat :=
  fromSextets ((rstripEq cs).map charSextet)

/-- Decoding sextets undoes encoding, for genuine bytes. -/
theorem fromSextets_toSextets (bs : List Nat) (h : ∀ b ∈ bs, b < 256) :
    fromSextets (toSextets bs) = bs := by
  induction bs using toSextets.induct with
  | case1 => rfl
  | case2 a =>
      have ha : a < 256 := h a (by simp)
      simp only [toSextets, fromSextets, List.cons.injEq, and_true]
      omega
  | case3 a b =>
      have ha : a < 256 := h a (by simp)
      have hb : b < 256 := h b (by simp)
      simp only [toSextets, fromSextets, List.cons.injEq, and_true]
      omega
  | case4 a b c rest ih =>
      have ha : a < 256 := h a (by simp)
      have hb : b < 256 := h b (by simp)
      have hc : c < 256 := h c (by simp)
      have hrest : ∀ x ∈ rest, x < 256 := fun x hx => h x (by simp [hx])
      simp only [toSextets, fromSextets, ih hrest, List.cons.injEq, and_true]
      omega

/-- Every sextet produced from genuine bytes is below 64. -/
theorem toSextets_lt (bs : List Nat) (h : ∀ b ∈ bs, b < 256) :
    ∀ s ∈ toSextets bs, s < 64 := by
  induction bs using toSextets.induct with
  | case1 => simp [toSextets]
  | case2 a =>
      have ha : a < 256 := h a (by simp)
      simp only [toSextets, List.mem_cons, List.not_mem_nil, or_false]
      rintro s (rfl | rfl) <;> omega
  | case3 a b =>
      have ha : a < 256 := h a (by simp)
      have hb : b < 256 := h b (by simp)
      simp only [toSextets, List.mem_cons, List.not_mem_nil, or_false]
      rintro s (rfl | rfl | rfl) <;> omega
  | case4 a b c rest ih =>
      have ha : a < 256 := h a (by simp)
      have hb : b < 256 := h b (by simp)
      have hc : c < 256 := h c (by simp)
      have hrest : ∀ x ∈ rest, x < 256 := fun x hx => h x (by simp [hx])
      simp only [toSextets, List.mem_cons]
      rintro s (rfl | rfl | rfl | rfl | hs)
      · omega
      · omega
      · omega
      · omega
      · exact ih hrest s hs

/-- charSextet inverts sextetChar below 64. -/
theorem charSextet_sextetChar_of_lt : ∀ n, n < 64 →
    charSextet (sextetChar n) = n := by decide

/-- The alphabet never produces the padding character. -/
theorem sextetChar_ne_pad (n : Nat) : sextetChar n ≠ '=' := by
  by_cases h : n < 64
  · revert h
    revert n
    decide
  · unfold sextetChar
    rw [List.getD_eq_default]
    · decide
    · have : b64Alphabet.length = 64 := by decide
      omega

/-- Mapping to characters and back is the identity on sextet lists. -/
theorem map_charSextet_map_sextetChar (sx : List Nat) (h : ∀ s ∈ sx, s < 64) :
    (sx.map sextetChar).map charSextet = sx := by
  induction sx with
  | nil => rfl
  | cons s t ih =>
      have hs : s < 64 := h s (by simp)
      have ht : ∀ x ∈ t, x < 64 := fun x hx => h x (by simp [hx])
      simp only [List.map_cons, List.cons.injEq]
      exact ⟨charSextet_sextetChar_of_lt s hs, ih ht⟩

/-- dropWhile on the padding predicate consumes a padding run and stops at the
first non-padding character. -/
theorem dropWhile_pad_replicate_append (k : Nat) (l : List Char)
    (h : ∀ c ∈ l, c ≠ '=') :
    (List.replicate k '=' ++ l).dropWhile (fun c => c == '=') = l := by
  induction k with
  | zero =>
      cases l with
      | nil => rfl
      | cons c t =>
          have hc : c ≠ '=' := h c (by simp)
          simp [List.dropWhile_cons, hc]
  | succ n ih => simpa [List.replicate_succ, List.dropWhile_cons] using ih

/-- Stripping trailing padding from text followed by padding returns the text,
whenever the text itself holds no padding character. -/
theorem rstripEq_append_replicate (l : List Char) (k : Nat)
    (h : ∀ c ∈ l, c ≠ '=') :
    rstripEq (l ++ List.replicate k '=') = l := by
  unfold rstripEq
  rw [List.reverse_append, List.reverse_replicate,
    dropWhile_pad_replicate_append k l.reverse
      (fun c hc => h c (List.mem_reverse.mp hc)),
    List.reverse_reverse]

/-- No character of the encoded (pre-padding) base64 text is the padding
character. -/
theorem mem_map_sextetChar_ne_pad (sx : List Nat) :
    ∀ c ∈ sx.map sextetChar, c ≠ '=' := by
  intro c hc
  rcases List.mem_map.mp hc with ⟨s, _, rfl⟩
  exact sextetChar_ne_pad s

/-- Stripping the padding from an encoding leaves exactly the alphabet
characters. -/
theorem rstripEq_b64encode (bs : List Nat) :
    rstripEq (b64encode bs) = (toSextets bs).map sextetChar := by
  unfold b64encode
  exact rstripEq_append_replicate _ _ (mem_map_sextetChar_ne_pad _)

/-- Re-padding then decoding inverts encode-then-strip, for genuine bytes. -/
theorem b64decode_repad_rstripEq (bs : List Nat) (h : ∀ b ∈ bs, b < 256) :
    b64decode (repad (rstripEq (b64encode bs))) = bs := by
  rw [rstripEq_b64encode]
  unfold repad b64decode
  rw [rstripEq_append_replicate _ _ (mem_map_sextetChar_ne_pad _),
    map_charSextet_map_sextetChar _ (toSextets_lt bs h),
    fromSextets_toSextets bs h]

/-! ## Bearer-token derivation (get_kubeconf, cluster.py lines 164-166)

The presigned URL is a byte sequence (its UTF-8 encoding); the token is the
fixed prefix followed by the stripped URL-safe base64 encoding of those
bytes. -/

/-- Embeds token = TOKEN_PREFIX + urlsafe_b64encode(url).decode().rstrip of
the padding character. -/
def get_kubeconf_token (url : List Nat) : List Char :=
  tokenPrefixChars ++ rstripEq (b64encode url)

/-- Claim C1: for every presigned URL (as its byte sequence), the bearer token
built by get_kubeconf is the fixed prefix "k8s-aws-v1." followed by the
URL-safe base64 encoding of the URL with trailing padding stripped, and
re-padding then base64-decoding the token suffix reconstructs the URL byte for
byte. -/
theorem token_roundtrip (url : List Nat) (h : ∀ b ∈ url, b < 256) :
    (get_kubeconf_token url).take 11 = tokenPrefixChars ∧
    (get_kubeconf_token url).drop 11 = rstripEq (b64encode url) ∧
    b64decode (repad ((get_kubeconf_token url).drop 11)) = url := by
  have hlen : tokenPrefixChars.length = 11 := by decide
  have htake : (get_kubeconf_token url).take 11 = tokenPrefixChars := by
    unfold get_kubeconf_token
    rw [← hlen, List.take_left]
  have hdrop : (get_kubeconf_token url).drop 11 = rstripEq (b64encode url) := by
    unfold get_kubeconf_token
    rw [← hlen, List.drop_left]
  refine ⟨htake, hdrop, ?_⟩
  rw [hdrop]
  exact b64decode_repad_rstripEq url h

/-- Concrete run of token_roundtrip on the bytes of "http". -/
theorem token_roundtrip_witness :
    (get_kubeconf_token [104, 116, 116, 112]).take 11 = tokenPrefixChars ∧
    (get_kubeconf_token [104, 116, 116, 112]).drop 11 =
      rstripEq (b64encode [104, 116, 116, 112]) ∧
    b64decode (repad ((get_kubeconf_token [104, 116, 116, 112]).drop 11)) =
      [104, 116, 116, 112] :=
  token_roundtrip [104, 116, 116, 112] (by decide)

/-! ## Kubeconfig document (get_kubeconf, cluster.py lines 167-200) -/

/-- Embeds _compat.text_type, which is str on Python 3: identity on text. -/
def text_type (s : String) : String := s

/-- One entry of the clusters list of the kubeconfig document. -/
structure ClusterEntry where
  server : String
  certificateAuthorityData : String
  name : String

/-- One entry of the contexts list of the kubeconfig document. -/
structure ContextEntry where
  cluster : String
  user : String
  name : String

/-- One entry of the users list of the kubeconfig document. -/
structure UserEntry where
  name : String
  token : List Char

/-- The kubeconfig document shape built by get_kubeconf. -/
structure KubeConfig where
  apiVersion : String
  kind : String
  clusters : List ClusterEntry
  contexts : List ContextEntry
  currentContext : String
  users : List UserEntry

/-- Embeds the cluster_config dictionary literal of get_kubeconf, given the
described cluster endpoint, its certificate-authority data and the presigned
URL bytes. -/
def build_cluster_config (cluster_ep cluster_cert : String) (url : List Nat) :
    KubeConfig :=
  { apiVersion := "v1"
    kind := "Config"
    clusters := [{ server := text_type cluster_ep
                   certificateAuthorityData := text_type cluster_cert
                   name := "kubernetes" }]
    contexts := [{ cluster := "kubernetes", user := "aws", name := "aws" }]
    currentContext := "aws"
    users := [{ name := "aws", token := get_kubeconf_token url }] }

/-- The token holds no padding character at all. -/
theorem get_kubeconf_token_no_pad (url : List Nat) :
    (get_kubeconf_token url).contains '=' = false := by
  have hall : ∀ c ∈ get_kubeconf_token url, c ≠ '=' := by
    intro c hc
    unfold get_kubeconf_token at hc
    have hpfx : ∀ x ∈ tokenPrefixChars, x ≠ '=' := by decide
    rcases List.mem_append.mp hc with hpre | hsuf
    · exact hpfx c hpre
    · rw [rstripEq_b64encode] at hsuf
      exact mem_map_sextetChar_ne_pad _ c hsuf
  have hmem : '=' ∉ get_kubeconf_token url := fun hc => hall _ hc rfl
  simpa using hmem

/-- Claim C4: the generated kubeconfig has exactly one cluster, one context and
one user entry, current-context "aws", the cluster endpoint and CA data copied
unchanged, and a token that starts with "k8s-aws-v1." and holds no '='
character. -/
theorem kubeconf_shape (ep ca : String) (url : List Nat) :
    (build_cluster_config ep ca url).clusters.length = 1 ∧
    (build_cluster_config ep ca url).contexts.length = 1 ∧
    (build_cluster_config ep ca url).users.length = 1 ∧
    (build_cluster_config ep ca url).currentContext = "aws" ∧
    ((build_cluster_config ep ca url).clusters.map ClusterEntry.server
      = [ep]) ∧
    ((build_cluster_config ep ca url).clusters.map
      ClusterEntry.certificateAuthorityData = [ca]) ∧
    ((build_cluster_config ep ca url).users.map
      (fun u => u.token.take 11) = [tokenPrefixChars]) ∧
    ((build_cluster_config ep ca url).users.map
      (fun u => u.token.contains '=') = [false]) := by
  have hlen : tokenPrefixChars.length = 11 := by decide
  refine ⟨rfl, rfl, rfl, rfl, rfl, rfl, ?_, ?_⟩
  · simp only [build_cluster_config, List.map_cons, List.map_nil,
      get_kubeconf_token, List.cons.injEq, and_true]
    rw [← hlen, List.take_left]
  · simp only [build_cluster_config, List.map_cons, List.map_nil,
      List.cons.injEq, and_true]
    exact get_kubeconf_token_no_pad url

/-! ## Presigned-URL expiry (get_kubeconf, cluster.py lines 159-163) -/

/-- Claim C2 (code bug): get_kubeconf passes ExpiresIn = 60, the raw value of
TOKEN_EXPIRATION_MINS; ExpiresIn is measured in seconds, so the window is 60
seconds, not the 3600 seconds (60 minutes) the constant name and the spec
intend. -/
theorem expires_in_is_60_seconds :
    generate_presigned_url_expires_in = 60 ∧
    TOKEN_EXPIRATION_MINS * 60 = 3600 ∧
    generate_presigned_url_expires_in ≠ 3600 := by decide

/-! ## Readiness waiter (wait_for_cluster, cluster.py lines 136-147) -/

/-- The WaiterConfig dictionary shape passed to the waiter. -/
structure WaiterConfig where
  Delay : Nat
  MaxAttempts : Nat

/-- Embeds the WaiterConfig literal wait_for_cluster hands to the waiter:
a 30-second delay and a ceiling of 40 attempts. -/
def wait_for_cluster_waiter_config : WaiterConfig :=
  { Delay := 30, MaxAttempts := 40 }

/-- Modelled from the spec: the waiter polling loop itself lives in botocore,
not in src/; per the spec it invokes describe at a fixed interval, succeeds as
soon as the poll reports the target status, and raises a timeout error once the
attempt budget is exhausted. poll n is the outcome of the n-th describe call;
the Nat result of a success is the attempt at which the target was observed. -/
def runWaiter (poll : Nat → Bool) : Nat → Nat → Except String Nat
  | _, 0 => .error "Max attempts exceeded"
  | attempt, fuel + 1 =>
      if poll attempt then .ok attempt else runWaiter poll (attempt + 1) fuel

/-- Embeds wait_for_cluster: runs the waiter from attempt 1 with the fuel the
WaiterConfig prescribes. -/
def wait_for_cluster (poll : Nat → Bool) : Except String Nat :=
  runWaiter poll 1 wait_for_cluster_waiter_config.MaxAttempts

/-- The waiter either succeeds at some attempt within its budget at which the
poll reported the target, or returns the timeout error with every polled
attempt having reported false; in particular it always terminates. -/
theorem runWaiter_cases (poll : Nat → Bool) (fuel : Nat) : ∀ start : Nat,
    (∃ k, start ≤ k ∧ k < start + fuel ∧
      runWaiter poll start fuel = .ok k ∧ poll k = true) ∨
    (runWaiter poll start fuel = .error "Max attempts exceeded" ∧
      ∀ k, start ≤ k → k < start + fuel → poll k = false) := by
  induction fuel with
  | zero =>
      intro start
      right
      exact ⟨rfl, fun k h1 h2 => absurd h2 (by omega)⟩
  | succ n ih =>
      intro start
      by_cases h : poll start
      · left
        exact ⟨start, le_refl _, by omega, by simp [runWaiter, h], h⟩
      · have hfalse : poll start = false := by
          exact Bool.eq_false_iff.mpr h
        rcases ih (start + 1) with ⟨k, h1, h2, h3, h4⟩ | ⟨h1, h2⟩
        · left
          refine ⟨k, by omega, by omega, ?_, h4⟩
          simpa [runWaiter, hfalse] using h3
        · right
          refine ⟨by simpa [runWaiter, hfalse] using h1, ?_⟩
          intro k hk1 hk2
          rcases Nat.eq_or_lt_of_le hk1 with rfl | hk
          · exact hfalse
          · exact h2 k (by omega) (by omega)

/-- Claim C3: the waiter is configured with a fixed 30-second interval and a
ceiling of 40 attempts; every wait invocation either succeeds at an attempt k
with 1 ≤ k ≤ 40 — hence within MaxAttempts * Delay = 1200 seconds of polling —
or raises the timeout error with all 40 attempts exhausted (each of attempts
1..40 polled and below target); it never loops indefinitely. -/
theorem waiter_termination_bound (poll : Nat → Bool) :
    wait_for_cluster_waiter_config.Delay = 30 ∧
    wait_for_cluster_waiter_config.MaxAttempts = 40 ∧
    ((∃ k, 1 ≤ k ∧ k ≤ 40 ∧ wait_for_cluster poll = .ok k ∧ poll k = true ∧
        k * wait_for_cluster_waiter_config.Delay ≤ 40 * 30) ∨
      (wait_for_cluster poll = .error "Max attempts exceeded" ∧
        ∀ k, 1 ≤ k → k ≤ 40 → poll k = false)) := by
  refine ⟨rfl, rfl, ?_⟩
  rcases runWaiter_cases poll wait_for_cluster_waiter_config.MaxAttempts 1 with
    ⟨k, h1, h2, h3, h4⟩ | ⟨h1, h2⟩
  · left
    have hk40 : k ≤ 40 := by
      have : wait_for_cluster_waiter_config.MaxAttempts = 40 := rfl
      omega
    refine ⟨k, h1, hk40, h3, h4, ?_⟩
    have hd : wait_for_cluster_waiter_config.Delay = 30 := rfl
    rw [hd]
    omega
  · right
    refine ⟨h1, fun k hk1 hk2 => h2 k hk1 ?_⟩
    have : wait_for_cluster_waiter_config.MaxAttempts = 40 := rfl
    omega

/-- Concrete run of waiter_termination_bound with a poll that first reports the
target at attempt 3. -/
theorem waiter_termination_bound_witness :
    wait_for_cluster_waiter_config.Delay = 30 ∧
    wait_for_cluster_waiter_config.MaxAttempts = 40 ∧
    ((∃ k, 1 ≤ k ∧ k ≤ 40 ∧
        wait_for_cluster (fun n => decide (3 ≤ n)) = .ok k ∧
        (fun n => decide (3 ≤ n)) k = true ∧
        k * wait_for_cluster_waiter_config.Delay ≤ 40 * 30) ∨
      (wait_for_cluster (fun n => decide (3 ≤ n)) =
          .error "Max attempts exceeded" ∧
        ∀ k, 1 ≤ k → k ≤ 40 → (fun n => decide (3 ≤ n)) k = false)) :=
  waiter_termination_bound (fun n => decide (3 ≤ n))

/-! ## Cluster-name header injection (cluster.py lines 50-68)

The request being presigned, with its operation parameters, its context
dictionary and its headers, each an association list keyed by strings. -/

/-- The request state the two registered handlers transform. -/
structure AWSRequest where
  params : List (String × String)
  context : List (String × String)
  headers : List (String × String)

/-- Embeds _retrieve_cluster_name, the handler registered on
provide-client-params: when ClusterName is among the parameters it is popped
from them and stored in the request context under eks_cluster. -/
def retrieve_cluster_name (r : AWSRequest) : AWSRequest :=
  match r.params.lookup "ClusterName" with
  | some v =>
      { r with
        params := r.params.filter (fun kv => !(kv.1 == "ClusterName"))
        context := ("eks_cluster", v) :: r.context }
  | none => r

/-- Embeds _inject_cluster_name_header, the handler registered on before-sign:
when the context holds eks_cluster its value is added to the request headers
under the cluster-name header key. -/
def inject_cluster_name_header (r : AWSRequest) : AWSRequest :=
  match r.context.lookup "eks_cluster" with
  | some v => { r with headers := (CLUSTER_NAME_HEADER, v) :: r.headers }
  | none => r

/-- Modelled from the spec: botocore event dispatch and SigV4 presigning are
not in src/; per the spec the presigning run fires the provide-client-params
handlers first, then the before-sign handlers, and then signs the request, the
headers present at that moment being part of the signed portion. The result is
the header list of the request as it is signed. -/
def presign_signed_headers (r : AWSRequest) : List (String × String) :=
  (inject_cluster_name_header (retrieve_cluster_name r)).headers

/-- Lookup fails on a list from which every pair with the key was filtered. -/
theorem lookup_filter_key_ne (k : String) (l : List (String × String)) :
    (l.filter (fun kv => !(kv.1 == k))).lookup k = none := by
  induction l with
  | nil => rfl
  | cons kv t ih =>
      by_cases h : kv.1 = k
      · simpa [List.filter, h] using ih
      · have hne : (kv.1 == k) = false := by simpa using h
        have hne' : (k == kv.1) = false := by
          simpa using fun hk => h hk.symm
        simpa [List.filter, hne, List.lookup, hne'] using ih

/-- Claim C5: when ClusterName is among the request parameters, the handler
pair pops it from the parameters during parameter provision and re-adds it as
the x-k8s-aws-id header before signing, so the cluster name is carried in the
signed portion of the presigned request and is no longer a plain parameter. -/
theorem cluster_name_header_signed (r : AWSRequest) (name : String)
    (h : r.params.lookup "ClusterName" = some name) :
    (presign_signed_headers r).lookup CLUSTER_NAME_HEADER = some name ∧
    (retrieve_cluster_name r).params.lookup "ClusterName" = none ∧
    (retrieve_cluster_name r).context.lookup "eks_cluster" = some name := by
  have hret : retrieve_cluster_name r =
      { r with
        params := r.params.filter (fun kv => !(kv.1 == "ClusterName"))
        context := ("eks_cluster", name) :: r.context } := by
    unfold retrieve_cluster_name
    rw [h]
  have hctx : (retrieve_cluster_name r).context.lookup "eks_cluster"
      = some name := by
    rw [hret]
    simp [List.lookup]
  refine ⟨?_, ?_, hctx⟩
  · unfold presign_signed_headers inject_cluster_name_header
    rw [hctx]
    simp [List.lookup]
  · rw [hret]
    exact lookup_filter_key_ne "ClusterName" r.params

/-- Concrete run of cluster_name_header_signed on the request get_kubeconf
builds: parameters holding only the cluster name, empty context and headers. -/
theorem cluster_name_header_signed_witness :
    (presign_signed_headers
        { params := [("ClusterName", "demo")], context := [], headers := [] }
      ).lookup CLUSTER_NAME_HEADER = some "demo" ∧
    (retrieve_cluster_name
        { params := [("ClusterName", "demo")], context := [], headers := [] }
      ).params.lookup "ClusterName" = none ∧
    (retrieve_cluster_name
        { params := [("ClusterName", "demo")], context := [], headers := [] }
      ).context.lookup "eks_cluster" = some "demo" :=
  cluster_name_header_signed
    { params := [("ClusterName", "demo")], context := [], headers := [] }
    "demo" (by rfl)

/-! ## Python values and exceptions used by the error-policy claims -/

/-- The exception classes the module distinguishes. -/
inductive Exc where
  | ClientError
  | CloudifyClientError
  | AttributeError
deriving DecidableEq

/-- A Python value as stored in runtime properties: text, dictionaries, lists,
or an opaque object (which JSON serialization rejects); the field of obj is
the text naming it in the TypeError message. -/
inductive PyVal where
  | str : String → PyVal
  | dict : List (String × PyVal) → PyVal
  | list : List PyVal → PyVal
  | obj : String → PyVal

/-- Embeds the json.dumps serializability check of
_store_kubeconfig_in_runtime_properties: walks the value and returns the
TypeError message for the first non-JSON-serializable object, or none when
serialization succeeds. -/
def serialErr : PyVal → Option String
  | .str _ => none
  | .obj r => some (r ++ " is not JSON serializable")
  | .dict [] => none
  | .dict ((_, v) :: rest) =>
      (serialErr v).orElse (fun _ => serialErr (.dict rest))
  | .list [] => none
  | .list (v :: rest) =>
      (serialErr v).orElse (fun _ => serialErr (.list rest))

/-- Outcome of storing the kubeconfig: either the updated runtime properties,
or a NonRecoverableError message together with the untouched properties. -/
inductive StoreResult where
  | stored : List (String × PyVal) → StoreResult
  | nonRecoverableError : String → List (String × PyVal) → StoreResult
deriving Inhabited

/-- Embeds _store_kubeconfig_in_runtime_properties (cluster.py lines 220-229):
json.dumps runs first; a TypeError becomes a NonRecoverableError naming the
cause and nothing is written, otherwise the document is stored unchanged under
kubeconf. -/
def store_kubeconfig_in_runtime_properties
    (runtime_properties : List (String × PyVal)) (kubeconf : PyVal) :
    StoreResult :=
  match serialErr kubeconf with
  | some cause =>
      .nonRecoverableError ("kubeconf not json serializable " ++ cause)
        runtime_properties
  | none => .stored (("kubeconf", kubeconf) :: runtime_properties)

/-- Claim C6: when the kubeconfig document is not JSON serializable, storing it
fails with a non-recoverable error whose message names the cause and the
runtime properties are left untouched; when it is serializable, the document is
stored unchanged under kubeconf. -/
theorem store_kubeconfig_policy (props : List (String × PyVal))
    (kubeconf : PyVal) :
    (∀ cause, serialErr kubeconf = some cause →
      store_kubeconfig_in_runtime_properties props kubeconf =
        .nonRecoverableError ("kubeconf not json serializable " ++ cause)
          props) ∧
    (serialErr kubeconf = none →
      store_kubeconfig_in_runtime_properties props kubeconf =
        .stored (("kubeconf", kubeconf) :: props)) := by
  constructor
  · intro cause hc
    unfold store_kubeconfig_in_runtime_properties
    rw [hc]
  · intro hn
    unfold store_kubeconfig_in_runtime_properties
    rw [hn]

/-- Concrete runs of store_kubeconfig_policy: a document holding an opaque
object is rejected with the properties untouched; a plain text document is
stored unchanged. -/
theorem store_kubeconfig_policy_witness :
    store_kubeconfig_in_runtime_properties []
        (.dict [("user", .obj "Object of type set")]) =
      .nonRecoverableError
        ("kubeconf not json serializable " ++
          "Object of type set is not JSON serializable") [] ∧
    store_kubeconfig_in_runtime_properties [] (.str "cfg") =
      .stored [("kubeconf", .str "cfg")] :=
  ⟨(store_kubeconfig_policy [] (.dict [("user", .obj "Object of type set")])).1
      "Object of type set is not JSON serializable" (by simp [serialErr]),
    (store_kubeconfig_policy [] (.str "cfg")).2 (by simp [serialErr])⟩

/-! ## Describe error policy (cluster.py lines 80-103 and 153-154)

The raw client call describe_cluster(**params)[CLUSTER] is an external
effect; each claim quantifies over its outcome: either the cluster payload or
a raised exception. -/

/-- Python truthiness on the values at hand: empty text, empty dictionaries
and empty lists are falsy. -/
def pyTruthy : PyVal → Bool
  | .str s => !(s == "")
  | .dict kvs => !kvs.isEmpty
  | .list vs => !vs.isEmpty
  | .obj _ => true

/-- Embeds EKSCluster.describe: the raw client call under a try block whose
except ClientError arm returns the empty dictionary; other exceptions
propagate. -/
def EKSCluster_describe (clientCall : Except Exc PyVal) : Except Exc PyVal :=
  match clientCall with
  | .ok v => .ok v
  | .error .ClientError => .ok (.dict [])
  | .error e => .error e

/-- Embeds the EKSCluster.properties getter: describe under a try block whose
except ClientError arm falls through (returning none); otherwise none when the
result is falsy, else the result. -/
def EKSCluster_properties (clientCall : Except Exc PyVal) :
    Except Exc (Option PyVal) :=
  match EKSCluster_describe clientCall with
  | .error .ClientError => .ok none
  | .error e => .error e
  | .ok props => .ok (if pyTruthy props then some props else none)

/-- Embeds the control flow of get_kubeconf around its raw describe_cluster
call (no try block: a raised exception propagates); on success the kubeconfig
document is built from the described endpoint and CA data. -/
def get_kubeconf (clusterLookup : Except Exc (String × String))
    (url : List Nat) : Except Exc KubeConfig :=
  match clusterLookup with
  | .error e => .error e
  | .ok (ep, ca) => .ok (build_cluster_config ep ca url)

/-- Counterexample to claim C8 as stated: on the direct describe-on-demand
call EKSCluster.describe, a raised ClientError is not surfaced either — the
call swallows it and returns the empty dictionary. -/
theorem describe_swallows_counterexample :
    EKSCluster_describe (.error .ClientError) = .ok (.dict []) := rfl

/-- Claim C8 (amended): a ClientError raised by the provider while describing
is swallowed by both wrapper paths — EKSCluster.describe returns the empty
dictionary and EKSCluster.properties returns none — and is surfaced only where
the raw client is called without the wrapper, as in get_kubeconf. -/
theorem describe_error_policy (url : List Nat) :
    EKSCluster_describe (.error .ClientError) = .ok (.dict []) ∧
    EKSCluster_properties (.error .ClientError) = .ok none ∧
    get_kubeconf (.error .ClientError) url = .error .ClientError := by
  refine ⟨rfl, rfl, rfl⟩

/-! ## Post-activation enrichment (poststart, cluster.py lines 283-321) -/

/-- Embeds the eks-node-type classification of poststart: Python truthiness of
the two name lists drives the if / elif / else chain. -/
def eks_node_type (fargate node_group : List String) : String :=
  if !fargate.isEmpty && !node_group.isEmpty then "fargate-nodegroup"
  else if !fargate.isEmpty then "fargate"
  else "nodegroup"

/-- Claim C9: the node classification is fargate-nodegroup when both the
fargate-profile and node-group lists are non-empty, fargate when only the
fargate-profile list is non-empty, and nodegroup otherwise, including when both
lists are empty. -/
theorem eks_node_type_cases (fargate node_group : List String) :
    (fargate ≠ [] → node_group ≠ [] →
      eks_node_type fargate node_group = "fargate-nodegroup") ∧
    (fargate ≠ [] → node_group = [] →
      eks_node_type fargate node_group = "fargate") ∧
    (fargate = [] → eks_node_type fargate node_group = "nodegroup") := by
  refine ⟨?_, ?_, ?_⟩
  · intro hf hn
    have hf' : fargate.isEmpty = false := by simpa using hf
    have hn' : node_group.isEmpty = false := by simpa using hn
    simp [eks_node_type, hf', hn']
  · intro hf hn
    have hf' : fargate.isEmpty = false := by simpa using hf
    simp [eks_node_type, hf', hn]
  · intro hf
    simp [eks_node_type, hf]

/-- Concrete runs of eks_node_type_cases on all three shapes, the both-empty
case included. -/
theorem eks_node_type_cases_witness :
    eks_node_type ["fp"] ["ng"] = "fargate-nodegroup" ∧
    eks_node_type ["fp"] [] = "fargate" ∧
    eks_node_type [] [] = "nodegroup" :=
  ⟨(eks_node_type_cases ["fp"] ["ng"]).1 (by decide) (by decide),
    (eks_node_type_cases ["fp"] []).2.1 (by decide) rfl,
    (eks_node_type_cases [] []).2.2 rfl⟩

/-- Embeds the site-assignment try block of poststart: the action may raise;
except ClientError logs a warning and continues, other exceptions propagate.
The result carries the warnings logged so far. -/
def site_assignment_block (site_action : Except Exc Unit)
    (log : List String) : Except Exc (List String) :=
  match site_action with
  | .ok _ => .ok log
  | .error .ClientError =>
      .ok (log ++
        ["Skipping assignment of site due to incompatible Cloudify version."])
  | .error e => .error e

/-- Embeds the enrichment tail of poststart: the add_new_labels try block
(except CloudifyClientError logs a warning and continues) followed by the
site-assignment try block; any other exception propagates and aborts. -/
def poststart_enrichment (labels_action site_action : Except Exc Unit) :
    Except Exc (List String) :=
  match labels_action with
  | .ok _ => site_assignment_block site_action []
  | .error .CloudifyClientError =>
      site_assignment_block site_action
        ["Skipping assignment of labels due to incompatible Cloudify version."]
  | .error e => .error e

/-- Claim C7: when the label write fails only with CloudifyClientError and the
site assignment only with ClientError — the incompatible-host failures — the
enrichment tail of poststart always completes with a warning log and never
propagates a fatal error; each failure contributes its warning. -/
theorem poststart_enrichment_best_effort
    (labels_action site_action : Except Exc Unit)
    (hl : labels_action = .ok () ∨
      labels_action = .error .CloudifyClientError)
    (hs : site_action = .ok () ∨ site_action = .error .ClientError) :
    ∃ log, poststart_enrichment labels_action site_action = .ok log ∧
      (labels_action = .error .CloudifyClientError →
        "Skipping assignment of labels due to incompatible Cloudify version."
          ∈ log) ∧
      (site_action = .error .ClientError →
        "Skipping assignment of site due to incompatible Cloudify version."
          ∈ log) := by
  rcases hl with rfl | rfl <;> rcases hs with rfl | rfl
  · exact ⟨[], rfl, by simp, by simp⟩
  · refine ⟨["Skipping assignment of site due to incompatible " ++
      "Cloudify version."], ?_, by simp, by simp⟩
    rfl
  · exact ⟨["Skipping assignment of labels due to incompatible " ++
      "Cloudify version."], rfl, by simp, by simp⟩
  · refine ⟨["Skipping assignment of labels due to incompatible " ++
        "Cloudify version.",
      "Skipping assignment of site due to incompatible Cloudify version."],
      ?_, by simp, by simp⟩
    rfl

/-- Concrete run of poststart_enrichment_best_effort with both enrichment
writes failing against an incompatible host. -/
theorem poststart_enrichment_best_effort_witness :
    ∃ log, poststart_enrichment (.error .CloudifyClientError)
        (.error .ClientError) = .ok log ∧
      ((Except.error Exc.CloudifyClientError : Except Exc Unit) =
          .error .CloudifyClientError →
        "Skipping assignment of labels due to incompatible Cloudify version."
          ∈ log) ∧
      ((Except.error Exc.ClientError : Except Exc Unit) =
          .error .ClientError →
        "Skipping assignment of site due to incompatible Cloudify version."
          ∈ log) :=
  poststart_enrichment_best_effort (.error .CloudifyClientError)
    (.error .ClientError) (Or.inr rfl) (Or.inr rfl)

/-! ## Deletion (EKSCluster.delete, cluster.py lines 202-210) -/

/-- Embeds EKSCluster.delete with params an optional dictionary (its default
is None): params.get on None raises AttributeError before any client call;
with a dictionary, one delete_cluster request is issued carrying the looked-up
name. The first component records the name arguments of the delete_cluster
requests issued. -/
def EKSCluster_delete (params : Option (List (String × String))) :
    List (Option String) × Except Exc Unit :=
  match params with
  | none => ([], .error .AttributeError)
  | some d => ([d.lookup "name"], .ok ())

/-- Claim C10: deleting with the default argument issues no deletion request
and fails with AttributeError, since the name lookup runs on None; exactly one
deletion request is issued when params is a dictionary. -/
theorem delete_default_no_request
    (params : Option (List (String × String))) :
    (params = none →
      EKSCluster_delete params = ([], .error .AttributeError)) ∧
    (∀ d, params = some d →
      EKSCluster_delete params = ([d.lookup "name"], .ok ())) := by
  constructor
  · rintro rfl
    rfl
  · rintro d rfl
    rfl

/-- Concrete runs of delete_default_no_request: the default None argument and
a dictionary carrying the cluster name. -/
theorem delete_default_no_request_witness :
    EKSCluster_delete none = ([], .error .AttributeError) ∧
    EKSCluster_delete (some [("name", "demo")]) =
      ([some "demo"], .ok ()) := by
  constructor
  · exact (delete_default_no_request none).1 rfl
  · have h := (delete_default_no_request (some [("name", "demo")])).2
      [("name", "demo")] rfl
    simpa [List.lookup] using h

end EKS
